import Mathlib

set_option maxHeartbeats 2000000

namespace GameStore

/-- a JSON response body as produced by the Express handlers in server.js.
`msg s m` models a body of the shape `{success: s, message: m}`; `err e`
models the body `{error: e}` that the checkout catch branch sends, carrying
the raw message of the caught store error; `orderOk oid` models
`{success: true, orderId: oid}`; `loginOk t uid` models
`{success: true, userType: t, userId: uid}`. -/
inductive Body where
  | msg (success : Bool) (message : String)
  | err (error : String)
  | orderOk (orderId : Nat)
  | loginOk (userType : String) (userId : Nat)
deriving DecidableEq

/-- an HTTP response: the status code set on the Express `res` object
(`res.json` without `res.status` leaves the default 200) plus the JSON body. -/
structure Response where
  status : Nat
  body : Body
deriving DecidableEq

/-- a row of the `users` table (schema DDL): identity, username, unique
email, bcrypt-hashed password, and a foreign key into `user_roles`. -/
structure User where
  user_id : Nat
  username : String
  email : String
  password : String
  role_id : Nat
deriving DecidableEq

/-- a row of the `games` table.  The DDL lists title, description, price,
genre and platform; server.js additionally selects and inserts an `image`
column, modelled as an optional file name.  Decimal prices are modelled as
integers (their exact arithmetic is irrelevant to every handler). -/
structure Game where
  game_id : Nat
  title : String
  description : String
  price : Int
  genre : String
  platform : String
  image : Option String
deriving DecidableEq

/-- a row of the `orders` table: identity, optional user reference (guest
checkout), `order_date` (datetime default current_timestamp, modelled as a
Nat timestamp), total amount, and a foreign key into `order_status`. -/
structure Order where
  order_id : Nat
  user_id : Option Nat
  order_date : Nat
  total_amount : Int
  status_id : Nat
deriving DecidableEq

/-- a row of the `order_items` table. -/
structure OrderItem where
  order_item_id : Nat
  order_id : Nat
  game_id : Nat
  quantity : Int
  price : Int
deriving DecidableEq

/-- a row of the `payments` table (payment_date is irrelevant to every
claim and omitted). -/
structure Payment where
  payment_id : Nat
  order_id : Nat
  status_id : Nat
  method_id : Nat
deriving DecidableEq

/-- a row of the `inventory` table: one-to-one with games. -/
structure InvRow where
  game_id : Nat
  stock_quantity : Int
deriving DecidableEq

/-- the relational state.  Lists model table contents; `nextXId` fields
model the `identity(1,1)` counters; `now` models the clock used for the
`order_date` default.  `user_roles`, `order_status`, `payment_status` and
`payment_methods` are the small lookup tables seeded by the DDL. -/
structure DB where
  user_roles : List (Nat × String)
  users : List User
  games : List Game
  order_status : List (Nat × String)
  orders : List Order
  payment_status : List (Nat × String)
  payment_methods : List (Nat × String)
  payments : List Payment
  inventory : List InvRow
  order_items : List OrderItem
  nextUserId : Nat
  nextGameId : Nat
  nextOrderId : Nat
  nextOrderItemId : Nat
  nextPaymentId : Nat
  now : Nat
deriving DecidableEq

/-- JavaScript falsiness of an optional string field of a JSON body:
`undefined`/`null` and the empty string are falsy. -/
def strFalsy (s : Option String) : Prop := s.getD "" = ""

instance (s : Option String) : Decidable (strFalsy s) :=
  inferInstanceAs (Decidable (s.getD "" = ""))

/-- JavaScript falsiness of an optional numeric field: absent or zero. -/
def intFalsy (s : Option Int) : Prop := s.getD 0 = 0

instance (s : Option Int) : Decidable (intFalsy s) :=
  inferInstanceAs (Decidable (s.getD 0 = 0))

/-- JavaScript falsiness of an optional numeric id field: absent or zero. -/
def natFalsy (s : Option Nat) : Prop := s.getD 0 = 0

instance (s : Option Nat) : Decidable (natFalsy s) :=
  inferInstanceAs (Decidable (s.getD 0 = 0))

/-- bcrypt.hash is external infrastructure (out of scope per the spec); it
is modelled as an injective tagging function, which is all the handlers
observe of it. -/
def hashPassword (p : String) : String := "bcrypt$" ++ p

/-- bcrypt.compare(p, h): true exactly when `h` is the hash of `p`. -/
def bcryptVerify (p : String) (h : String) : Prop := h = hashPassword p

instance (p h : String) : Decidable (bcryptVerify p h) :=
  inferInstanceAs (Decidable (h = hashPassword p))

/-- JavaScript String.prototype.toLowerCase for the ASCII role strings the
login handler compares. -/
def lowerString (s : String) : String := String.mk (s.data.map Char.toLower)

/-- first `user_roles` row with the given role_id (used by SQL joins). -/
def lookupName : List (Nat × String) → Nat → Option String
  | [], _ => none
  | p :: rest, i => if p.1 = i then some p.2 else lookupName rest i

/-- first `users` row with the given user_id (LEFT JOIN in the report). -/
def findUserById : List User → Nat → Option User
  | [], _ => none
  | u :: rest, i => if u.user_id = i then some u else findUserById rest i

/-- first `games` row with the given game_id. -/
def findGame : List Game → Nat → Option Game
  | [], _ => none
  | g :: rest, i => if g.game_id = i then some g else findGame rest i

/-- stock_quantity of the inventory row for a game, if one exists. -/
def stockOf : List InvRow → Nat → Option Int
  | [], _ => none
  | r :: rest, g => if r.game_id = g then some r.stock_quantity else stockOf rest g

/- ---------------------------------------------------------------- -/
/- POST /api/checkout (server.js lines 258-330) plus the DDL trigger
   trg_update_inventory_after_order.  The database client is modelled as
   executing the SQL of each statement against the relational state; a failing
   statement surfaces as an `Except.error` carrying the error message of
   the store, which the catch branch of the handler receives as `err.message`. -/
/- ---------------------------------------------------------------- -/

/-- one line of the `items` array of the request. -/
structure CartItem where
  game_id : Nat
  quantity : Int
  price : Int
deriving DecidableEq

/-- body of a POST /api/checkout request; absent JSON fields are `none`. -/
structure CheckoutReq where
  items : Option (List CartItem)
  totalAmount : Option Int
  paymentMethodId : Option Nat
  userId : Option Nat
deriving DecidableEq

/-- outcome of a checkout request: the response, the visible database
state after the handler finished, whether `transaction.begin()` had been
executed, and whether the transaction was still open (neither committed
nor rolled back) when the response was sent. -/
structure CheckoutResult where
  resp : Response
  db : DB
  txnBegan : Bool
  txnOpenAtEnd : Bool
deriving DecidableEq

/-- `userId || null` of server.js line 290: a falsy userId becomes NULL. -/
def effUserId : Option Nat → Option Nat
  | none => none
  | some u => if u = 0 then none else some u

/-- the user_id foreign key of the `orders` table: a non-NULL user_id
must reference an existing users row. -/
def userFkOk (db : DB) : Option Nat → Prop
  | none => True
  | some u => ∃ x ∈ db.users, x.user_id = u

instance userFkOkDec (db : DB) (eu : Option Nat) : Decidable (userFkOk db eu) :=
  match eu with
  | none => isTrue trivial
  | some u => inferInstanceAs (Decidable (∃ x ∈ db.users, x.user_id = u))

/-- the `INSERT INTO orders` statement: enforces the foreign keys of the
`orders` table (user_id into users when non-NULL, status_id into
order_status), stamps the date default, and returns SCOPE_IDENTITY(). -/
def insertOrder (db : DB) (eu : Option Nat) (total : Int) : Except String (DB × Nat) :=
  if userFkOk db eu ∧ (∃ s ∈ db.order_status, s.1 = 1) then
    Except.ok ({ db with
      orders := db.orders ++ [⟨db.nextOrderId, eu, db.now, total, 1⟩],
      nextOrderId := db.nextOrderId + 1 }, db.nextOrderId)
  else Except.error "INSERT INTO orders conflicted with a FOREIGN KEY constraint"

/-- the DDL trigger trg_update_inventory_after_order: after an insert on
`order_items`, decrement the matching inventory row by the inserted
quantity (no floor check; absent inventory rows are left alone). -/
def applyInvTrigger (gid : Nat) (q : Int) : List InvRow → List InvRow
  | [] => []
  | r :: rest =>
    (if r.game_id = gid then ⟨r.game_id, r.stock_quantity - q⟩ else r)
      :: applyInvTrigger gid q rest

/-- the per-line `INSERT INTO order_items` loop of server.js lines
301-311: each insert enforces the game_id foreign key and fires the
inventory trigger.  The order_id foreign key trivially holds for the
order row inserted just before in the same transaction. -/
def insertItems (oid : Nat) : List CartItem → DB → Except String DB
  | [], db => Except.ok db
  | it :: rest, db =>
    if ∃ g ∈ db.games, g.game_id = it.game_id then
      insertItems oid rest { db with
        order_items := db.order_items ++
          [⟨db.nextOrderItemId, oid, it.game_id, it.quantity, it.price⟩],
        nextOrderItemId := db.nextOrderItemId + 1,
        inventory := applyInvTrigger it.game_id it.quantity db.inventory }
    else Except.error "INSERT INTO order_items conflicted with a FOREIGN KEY constraint"

/-- the `INSERT INTO payments` statement: enforces the status_id and
method_id foreign keys. -/
def insertPayment (db : DB) (oid : Nat) (method : Nat) : Except String DB :=
  if (∃ s ∈ db.payment_status, s.1 = 1) ∧ (∃ m ∈ db.payment_methods, m.1 = method) then
    Except.ok { db with
      payments := db.payments ++ [⟨db.nextPaymentId, oid, 1, method⟩],
      nextPaymentId := db.nextPaymentId + 1 }
  else Except.error "INSERT INTO payments conflicted with a FOREIGN KEY constraint"

/-- steps 1-3 of the checkout transaction body (order, items, payment),
threading the tentative transaction-local state. -/
def checkoutTxnBody (db : DB) (req : CheckoutReq) (items : List CartItem) :
    Except String (DB × Nat) :=
  match insertOrder db (effUserId req.userId) (req.totalAmount.getD 0) with
  | Except.error e => Except.error e
  | Except.ok (db1, oid) =>
    match insertItems oid items db1 with
    | Except.error e => Except.error e
    | Except.ok db2 =>
      match insertPayment db2 oid (req.paymentMethodId.getD 0) with
      | Except.error e => Except.error e
      | Except.ok db3 => Except.ok (db3, oid)

/-- POST /api/checkout.  Field validation (`!items || !totalAmount ||
!paymentMethodId`) runs before the transaction is begun; note that an
empty `items` array is truthy in JavaScript and passes it.  After
`transaction.begin()`, the handler interpolates the game ids into
`SELECT game_id FROM games WHERE game_id IN (...)` — an empty cart makes
that statement `IN ()`, a T-SQL syntax error caught by the catch branch —
and compares the row count with the number of cart lines, returning 400
(without closing the transaction) on mismatch.  The catch branch rolls
the transaction back and sends status 500 with body `{error: err.message}`. -/
def checkout (db : DB) (req : CheckoutReq) : CheckoutResult :=
  match req.items with
  | none => ⟨⟨400, Body.msg false "Missing required fields."⟩, db, false, false⟩
  | some items =>
    if intFalsy req.totalAmount ∨ natFalsy req.paymentMethodId then
      ⟨⟨400, Body.msg false "Missing required fields."⟩, db, false, false⟩
    else
      if items.map (fun it => it.game_id) = [] then
        ⟨⟨500, Body.err "Incorrect syntax near the keyword WHERE"⟩, db, true, false⟩
      else if (db.games.filter
            (fun g => decide (g.game_id ∈ items.map (fun it => it.game_id)))).length
          = (items.map (fun it => it.game_id)).length then
        match checkoutTxnBody db req items with
        | Except.ok (db3, oid) => ⟨⟨200, Body.orderOk oid⟩, db3, true, false⟩
        | Except.error e => ⟨⟨500, Body.err e⟩, db, true, false⟩
      else
        ⟨⟨400, Body.msg false "One or more game IDs are invalid."⟩, db, true, true⟩

/-- sum of the quantities the cart purchases of one game (the total
amount by which the trigger decrements the stock of that game). -/
def qtySum (g : Nat) (items : List CartItem) : Int :=
  ((items.filter (fun it => decide (it.game_id = g))).map (fun it => it.quantity)).sum

/-- well-formedness of a reachable database state: identity counters are
ahead of every stored row, and game ids are unique (games.game_id is the
primary key). -/
def DBWF (db : DB) : Prop :=
  (∀ o ∈ db.orders, o.order_id < db.nextOrderId) ∧
  (∀ oi ∈ db.order_items, oi.order_id < db.nextOrderId) ∧
  (∀ p ∈ db.payments, p.order_id < db.nextOrderId) ∧
  (db.games.map (fun g => g.game_id)).Nodup

instance (db : DB) : Decidable (DBWF db) := by
  unfold DBWF
  infer_instance

/- ---------------------------------------------------------------- -/
/- POST /api/games (server.js lines 101-169): admin game creation with
   in-memory duplicate-request suppression via the `activeRequests` set. -/
/- ---------------------------------------------------------------- -/

/-- body and file of a POST /api/games request after multer; `requestId`
is the x-request-id header or the generated uuid (always present);
`image` is the stored file name when a file was uploaded.  Multipart text
fields arrive as strings; `price` is modelled by the numeric value the
sql driver converts it to. -/
structure GameReq where
  requestId : String
  title : Option String
  description : Option String
  price : Option Int
  genre : Option String
  platform : Option String
  image : Option String
deriving DecidableEq

/-- outcome of a POST /api/games request: response, the `activeRequests`
set (modelled as a duplicate-free list) and database afterwards. -/
structure AddGameResult where
  resp : Response
  active : List String
  db : DB
deriving DecidableEq

/-- POST /api/games.  Reject immediately when the request id is already
in flight; otherwise add it, run the transaction (field validation,
duplicate-title check, insert), and in the `finally` block remove the id
again on every one of those exit paths. -/
def addGame (active : List String) (db : DB) (req : GameReq) : AddGameResult :=
  if req.requestId ∈ active then
    ⟨⟨400, Body.msg false "Duplicate request detected."⟩, active, db⟩
  else
    let active1 := active ++ [req.requestId]
    if strFalsy req.title ∨ strFalsy req.description ∨ intFalsy req.price ∨
        strFalsy req.genre ∨ strFalsy req.platform ∨ strFalsy req.image then
      ⟨⟨400, Body.msg false "All fields are required, including an image."⟩,
        active1.erase req.requestId, db⟩
    else if ∃ g ∈ db.games, g.title = req.title.getD "" then
      ⟨⟨400, Body.msg false "Game with this title already exists."⟩,
        active1.erase req.requestId, db⟩
    else
      ⟨⟨200, Body.msg true "Game added successfully."⟩,
        active1.erase req.requestId,
        { db with
          games := db.games ++ [⟨db.nextGameId, req.title.getD "",
            req.description.getD "", req.price.getD 0, req.genre.getD "",
            req.platform.getD "", req.image⟩],
          nextGameId := db.nextGameId + 1 }⟩

/- ---------------------------------------------------------------- -/
/- DELETE /api/games/:id (server.js lines 204-235) and GET /api/orders
   (server.js lines 333-358). -/
/- ---------------------------------------------------------------- -/

/-- outcome of a handler that returns a response and a database. -/
structure EndpointResult where
  resp : Response
  db : DB
deriving DecidableEq

/-- DELETE /api/games/:id: in one transaction delete the order_items rows
referencing the game, then the game row.  The DDL declares
`inventory.game_id` a foreign key into `games` with no cascade, and the
handler never touches `inventory`, so the games DELETE raises a
reference-constraint error whenever an inventory row references the game
being deleted: the catch branch rolls the transaction back (restoring the
order_items) and answers 500.  If instead the game delete affected zero
rows, roll back and answer 404. -/
def deleteGame (db : DB) (gid : Nat) : EndpointResult :=
  if ∃ g ∈ db.games, g.game_id = gid then
    if ∃ r ∈ db.inventory, r.game_id = gid then
      ⟨⟨500, Body.msg false "Failed to delete game."⟩, db⟩
    else
      ⟨⟨200, Body.msg true "Game deleted successfully."⟩,
        { db with
          order_items := db.order_items.filter (fun oi => decide (oi.game_id ≠ gid)),
          games := db.games.filter (fun g => decide (g.game_id ≠ gid)) }⟩
  else
    ⟨⟨404, Body.msg false "Game not found."⟩, db⟩

/-- one row of the GET /api/orders result set. -/
structure ReportRow where
  order_id : Nat
  order_date : Nat
  total_amount : Int
  order_status : Option String
  customer_name : Option String
  order_item_id : Option Nat
  game_title : String
  quantity : Option Int
  price : Option Int
deriving DecidableEq

/-- the LEFT JOIN users leg of the report: the username for a non-NULL
user_id that still resolves, NULL otherwise. -/
def customerNameOf (db : DB) : Option Nat → Option String
  | none => none
  | some uid => (findUserById db.users uid).map (fun u => u.username)

/-- rows the report query produces for one order: LEFT JOIN order_items
(an order with no items yields a single row of NULLs), LEFT JOIN games
with the ISNULL placeholder `Deleted Game` as the title. -/
def reportRowsFor (db : DB) (o : Order) : List ReportRow :=
  if db.order_items.filter (fun oi => decide (oi.order_id = o.order_id)) = [] then
    [⟨o.order_id, o.order_date, o.total_amount, lookupName db.order_status o.status_id,
      customerNameOf db o.user_id, none, "Deleted Game", none, none⟩]
  else
    (db.order_items.filter (fun oi => decide (oi.order_id = o.order_id))).map (fun oi =>
      ⟨o.order_id, o.order_date, o.total_amount, lookupName db.order_status o.status_id,
        customerNameOf db o.user_id, some oi.order_item_id,
        (match findGame db.games oi.game_id with
         | some g => g.title
         | none => "Deleted Game"),
        some oi.quantity, some oi.price⟩)

/-- the ORDER BY o.order_date DESC relation. -/
def newestFirst (a b : Order) : Prop := b.order_date ≤ a.order_date

instance : DecidableRel newestFirst := fun a b => Nat.decLe b.order_date a.order_date

instance : IsTotal Order newestFirst :=
  ⟨fun a b => Or.symm (Nat.le_total a.order_date b.order_date)⟩

instance : IsTrans Order newestFirst :=
  ⟨fun _ _ _ hab hbc => Nat.le_trans hbc hab⟩

/-- GET /api/orders: the denormalized join, orders newest first. -/
def ordersReport (db : DB) : List ReportRow :=
  (List.insertionSort newestFirst db.orders).flatMap (reportRowsFor db)

/- ---------------------------------------------------------------- -/
/- POST /api/register and POST /api/login (server.js lines 361-434). -/
/- ---------------------------------------------------------------- -/

/-- body of a POST /api/register request. -/
structure RegisterReq where
  username : Option String
  email : Option String
  password : Option String
  role : Option String
deriving DecidableEq

/-- POST /api/register: field validation, email-uniqueness check, bcrypt
hash, role mapping (role_id 2 for the exact string admin, else 1), insert.  Every response
is sent with `res.json`, i.e. HTTP status 200. -/
def register (db : DB) (r : RegisterReq) : EndpointResult :=
  if strFalsy r.username ∨ strFalsy r.email ∨ strFalsy r.password ∨ strFalsy r.role then
    ⟨⟨200, Body.msg false "All fields are required."⟩, db⟩
  else if ∃ u ∈ db.users, u.email = r.email.getD "" then
    ⟨⟨200, Body.msg false "Email is already registered."⟩, db⟩
  else
    ⟨⟨200, Body.msg true "Registration successful."⟩,
      { db with
        users := db.users ++ [⟨db.nextUserId, r.username.getD "", r.email.getD "",
          hashPassword (r.password.getD ""),
          if r.role.getD "" = "admin" then 2 else 1⟩],
        nextUserId := db.nextUserId + 1 }⟩

/-- number of users rows holding the given email. -/
def countEmail (db : DB) (e : String) : Nat :=
  (db.users.filter (fun u => decide (u.email = e))).length

/-- body of a POST /api/login request (a request whose fields are
supplied; the handler reads all three). -/
structure LoginReq where
  role : String
  email : String
  password : String
deriving DecidableEq

/-- the login SELECT: first users row with the given email whose role_id
joins against user_roles. -/
def findByEmailJoined (roles : List (Nat × String)) : List User → String → Option User
  | [], _ => none
  | u :: rest, e =>
    if u.email = e ∧ ∃ r ∈ roles, r.1 = u.role_id then some u
    else findByEmailJoined roles rest e

/-- POST /api/login: look up by email, verify the password against the
stored hash, map role_id to a role name, compare with the lowercased
requested role.  The handler performs no writes, so it returns the
database unchanged alongside the response. -/
def login (db : DB) (r : LoginReq) : Response × DB :=
  match findByEmailJoined db.user_roles db.users r.email with
  | none => (⟨200, Body.msg false "Invalid email or password."⟩, db)
  | some u =>
    if bcryptVerify r.password u.password then
      if (if u.role_id = 2 then "admin" else "customer") = lowerString r.role then
        (⟨200, Body.loginOk (if u.role_id = 2 then "admin" else "customer") u.user_id⟩, db)
      else
        (⟨200, Body.msg false ("Access denied: not a " ++ r.role ++ ".")⟩, db)
    else (⟨200, Body.msg false "Invalid email or password."⟩, db)

/- ---------------------------------------------------------------- -/
/- Concrete states and requests used to exercise the handlers. -/
/- ---------------------------------------------------------------- -/

/-- a small reachable state: the DDL seed rows for the four lookup
tables, two games with inventory, no users or orders yet. -/
def seedDB : DB :=
  { user_roles := [(1, "customer"), (2, "admin")],
    users := [],
    games := [⟨1, "Halo", "fps", 60, "shooter", "xbox", some "halo.png"⟩,
              ⟨2, "Myst", "puzzle", 40, "puzzle", "pc", none⟩],
    order_status := [(1, "pending"), (2, "completed"), (3, "cancelled")],
    orders := [],
    payment_status := [(1, "paid"), (2, "failed"), (3, "pending")],
    payment_methods := [(1, "credit_card"), (2, "bank_transfer")],
    payments := [],
    inventory := [⟨1, 10⟩, ⟨2, 5⟩],
    order_items := [],
    nextUserId := 1, nextGameId := 3, nextOrderId := 1, nextOrderItemId := 1,
    nextPaymentId := 1, now := 100 }

/-- a valid two-line cart. -/
def okCheckoutReq : CheckoutReq := ⟨some [⟨1, 2, 60⟩, ⟨2, 1, 40⟩], some 160, some 1, none⟩

/-- a cart whose payment method id 99 references no payment_methods row,
so the payment insert fails after the order and item inserts succeeded. -/
def badMethodReq : CheckoutReq := ⟨some [⟨1, 1, 60⟩], some 60, some 99, none⟩

/-- an empty — but present, hence truthy — items array. -/
def emptyCartReq : CheckoutReq := ⟨some [], some 60, some 1, none⟩

/-- a request with no totalAmount. -/
def noTotalReq : CheckoutReq := ⟨some [⟨1, 1, 60⟩], none, some 1, none⟩

/-- a cart referencing game id 99, which is not in the catalog. -/
def unknownGameReq : CheckoutReq := ⟨some [⟨99, 1, 10⟩], some 10, some 1, none⟩

/-- a cart listing existing game id 1 on two lines. -/
def dupLinesReq : CheckoutReq := ⟨some [⟨1, 1, 60⟩, ⟨1, 2, 60⟩], some 180, some 1, none⟩

/-- seedDB extended with one order of one line item: two copies of game 1. -/
def reportDB : DB :=
  { seedDB with
    orders := [⟨1, none, 5, 20, 1⟩],
    order_items := [⟨1, 1, 1, 2, 10⟩],
    nextOrderId := 2, nextOrderItemId := 2 }

/-- reportDB without an inventory row for game 1, so deleting game 1
violates no foreign key. -/
def noInvReportDB : DB := { reportDB with inventory := [⟨2, 5⟩] }

/-- a complete admin game-creation request. -/
def newGameReq : GameReq :=
  ⟨"req-1", some "Quake", some "fps", some 20, some "shooter", some "pc", some "q.png"⟩

/-- a registration request with every field supplied, role `admin`. -/
def regReq1 : RegisterReq := ⟨some "alice", some "a@x.com", some "pw1", some "admin"⟩

/-- a second registration request for the same email. -/
def regReq2 : RegisterReq := ⟨some "alice2", some "a@x.com", some "pw2", some "customer"⟩

/-- a registration request whose role string `Admin` is not exactly
`admin`. -/
def regReqOddRole : RegisterReq := ⟨some "bob", some "b@x.com", some "pw", some "Admin"⟩

/-- seedDB extended with one registered customer account. -/
def loginDB : DB :=
  { seedDB with
    users := [⟨1, "carol", "c@x.com", hashPassword "secret", 1⟩],
    nextUserId := 2 }

/-- login attempt with an email that matches no user. -/
def loginUnknownReq : LoginReq := ⟨"customer", "z@x.com", "whatever"⟩

/-- login attempt with a known email but a non-verifying password. -/
def loginWrongPwReq : LoginReq := ⟨"customer", "c@x.com", "wrong"⟩

/-- login attempt with correct credentials but requested role `Admin`,
which lowercases to `admin` while the stored role is customer. -/
def loginRoleMismatchReq : LoginReq := ⟨"Admin", "c@x.com", "secret"⟩

/- ---------------------------------------------------------------- -/
/- Helper lemmas about the checkout transaction body. -/
/- ---------------------------------------------------------------- -/

theorem insertOrder_ok {db : DB} {eu : Option Nat} {t : Int} {db1 : DB} {oid : Nat}
    (h : insertOrder db eu t = Except.ok (db1, oid)) :
    oid = db.nextOrderId ∧
    db1 = { db with
            orders := db.orders ++ [⟨db.nextOrderId, eu, db.now, t, 1⟩],
            nextOrderId := db.nextOrderId + 1 } := by
  unfold insertOrder at h
  split at h
  · simp only [Except.ok.injEq, Prod.mk.injEq] at h
    exact ⟨h.2.symm, h.1.symm⟩
  · cases h

theorem insertPayment_ok {db : DB} {oid method : Nat} {db3 : DB}
    (h : insertPayment db oid method = Except.ok db3) :
    db3 = { db with
            payments := db.payments ++ [⟨db.nextPaymentId, oid, 1, method⟩],
            nextPaymentId := db.nextPaymentId + 1 } := by
  unfold insertPayment at h
  split at h
  · simp only [Except.ok.injEq] at h
    exact h.symm
  · cases h

theorem stockOf_applyInvTrigger (gid : Nat) (q : Int) (inv : List InvRow) (g : Nat) :
    stockOf (applyInvTrigger gid q inv) g =
      if g = gid then (stockOf inv g).map (fun s => s - q) else stockOf inv g := by
  induction inv with
  | nil =>
    simp only [applyInvTrigger, stockOf]
    split <;> rfl
  | cons r rest ih =>
    simp only [applyInvTrigger]
    by_cases h1 : r.game_id = gid
    · rw [if_pos h1]
      by_cases h2 : r.game_id = g
      · have hg : g = gid := h2.symm.trans h1
        simp [stockOf, h2, hg]
      · have hg : g ≠ gid := fun hh => h2 (h1.trans hh.symm)
        simp [stockOf, h2, hg, ih]
    · rw [if_neg h1]
      by_cases h2 : r.game_id = g
      · have hg : g ≠ gid := fun hh => h1 (h2.trans hh)
        simp [stockOf, h2, hg]
      · simp [stockOf, h2, ih]

theorem qtySum_nil (g : Nat) : qtySum g [] = 0 := rfl

theorem qtySum_cons (g : Nat) (it : CartItem) (rest : List CartItem) :
    qtySum g (it :: rest) =
      (if it.game_id = g then it.quantity else 0) + qtySum g rest := by
  by_cases h : it.game_id = g <;> simp [qtySum, List.filter_cons, h]

theorem insertItems_ok : ∀ (items : List CartItem) (db db2 : DB) (oid : Nat),
    insertItems oid items db = Except.ok db2 →
    db2.orders = db.orders ∧ db2.payments = db.payments ∧ db2.games = db.games ∧
    db2.nextPaymentId = db.nextPaymentId ∧
    (db2.order_items.filter (fun oi => decide (oi.order_id = oid))).length
      = (db.order_items.filter (fun oi => decide (oi.order_id = oid))).length
        + items.length ∧
    (∀ g, stockOf db2.inventory g
      = (stockOf db.inventory g).map (fun s => s - qtySum g items))
  | [], db, db2, oid, h => by
    simp only [insertItems, Except.ok.injEq] at h
    subst h
    refine ⟨rfl, rfl, rfl, rfl, by simp, fun g => ?_⟩
    cases stockOf db.inventory g <;> simp [qtySum_nil]
  | it :: rest, db, db2, oid, h => by
    simp only [insertItems] at h
    split at h
    · have ih := insertItems_ok rest _ db2 oid h
      obtain ⟨ho, hp, hg, hnp, hlen, hstock⟩ := ih
      refine ⟨ho, hp, hg, hnp, ?_, fun g => ?_⟩
      · rw [hlen]
        simp [List.filter_append, List.length_cons]
        omega
      · rw [hstock g]
        simp only [stockOf_applyInvTrigger]
        by_cases hgid : g = it.game_id
        · rw [if_pos hgid, qtySum_cons]
          rw [hgid]
          simp only [if_pos rfl]
          cases stockOf db.inventory it.game_id <;> simp <;> omega
        · rw [if_neg hgid, qtySum_cons, if_neg (fun hh => hgid hh.symm)]
          simp
    · cases h

theorem checkoutTxnBody_ok {db : DB} {req : CheckoutReq} {items : List CartItem}
    {db3 : DB} {oid : Nat}
    (hwf : DBWF db) (h : checkoutTxnBody db req items = Except.ok (db3, oid)) :
    ((db3.orders.filter (fun o => decide (o.order_id = oid))).map
        (fun o => o.status_id) = [1]) ∧
    db3.orders.length = db.orders.length + 1 ∧
    (db3.order_items.filter (fun oi => decide (oi.order_id = oid))).length
      = items.length ∧
    (db3.payments.filter (fun p => decide (p.order_id = oid))).length = 1 ∧
    (∀ g, stockOf db3.inventory g
      = (stockOf db.inventory g).map (fun s => s - qtySum g items)) := by
  unfold checkoutTxnBody at h
  split at h
  · exact Except.noConfusion h
  · rename_i db1 oid1 h1
    split at h
    · exact Except.noConfusion h
    · rename_i db2 h2
      split at h
      · exact Except.noConfusion h
      · rename_i db3x h3
        obtain ⟨hoid1, hdb1⟩ := insertOrder_ok h1
        obtain ⟨ho2, hp2, hg2, hnp2, hlen2, hstock2⟩ := insertItems_ok items db1 db2 oid1 h2
        simp only [Except.ok.injEq, Prod.mk.injEq] at h
        obtain ⟨hdb3, hoid⟩ := h
        have hp3 := insertPayment_ok h3
        subst hdb3 hoid hoid1
        have horders : db3x.orders = db.orders ++
            [⟨db.nextOrderId, effUserId req.userId, db.now, req.totalAmount.getD 0, 1⟩] := by
          rw [hp3]
          simp only [ho2, hdb1]
        have hfilterorders : db.orders.filter
            (fun o => decide (o.order_id = db.nextOrderId)) = [] := by
          refine List.filter_eq_nil_iff.mpr (fun o ho => ?_)
          have := hwf.1 o ho
          simp only [decide_eq_true_eq]
          omega
        refine ⟨?_, ?_, ?_, ?_, ?_⟩
        · rw [horders, List.filter_append, hfilterorders]
          simp
        · rw [horders]
          simp
        · have hitems3 : db3x.order_items = db2.order_items := by rw [hp3]
          have hitems1 : db1.order_items = db.order_items := by rw [hdb1]
          rw [hitems3, hlen2, hitems1]
          have hfi : db.order_items.filter
              (fun oi => decide (oi.order_id = db.nextOrderId)) = [] := by
            refine List.filter_eq_nil_iff.mpr (fun oi hoi => ?_)
            have := hwf.2.1 oi hoi
            simp only [decide_eq_true_eq]
            omega
          simp [hfi]
        · have hpay : db3x.payments = db.payments ++
              [⟨db2.nextPaymentId, db.nextOrderId, 1, req.paymentMethodId.getD 0⟩] := by
            rw [hp3]
            have : db1.payments = db.payments := by rw [hdb1]
            simp [hp2, this]
          have hfp : db.payments.filter
              (fun p => decide (p.order_id = db.nextOrderId)) = [] := by
            refine List.filter_eq_nil_iff.mpr (fun p hp => ?_)
            have := hwf.2.2.1 p hp
            simp only [decide_eq_true_eq]
            omega
          rw [hpay, List.filter_append, hfp]
          simp
        · intro g
          have hinv3 : db3x.inventory = db2.inventory := by rw [hp3]
          have hinv1 : db1.inventory = db.inventory := by rw [hdb1]
          rw [hinv3, hstock2 g, hinv1]

/- ---------------------------------------------------------------- -/
/- Counting lemmas for the game-id referential check. -/
/- ---------------------------------------------------------------- -/

theorem filter_mem_length_lt_of_missing (games : List Game) (ids : List Nat)
    (hnd : (games.map (fun g => g.game_id)).Nodup)
    (bad : Nat) (hbadmem : bad ∈ ids) (hmiss : ∀ g ∈ games, g.game_id ≠ bad) :
    (games.filter (fun g => decide (g.game_id ∈ ids))).length < ids.length := by
  have hFsub : (games.filter (fun g => decide (g.game_id ∈ ids))).Sublist games :=
    List.filter_sublist games
  have hLnd : ((games.filter (fun g => decide (g.game_id ∈ ids))).map
      (fun g => g.game_id)).Nodup :=
    List.Nodup.sublist (hFsub.map (fun g => g.game_id)) hnd
  have hLsub : ∀ x ∈ (games.filter (fun g => decide (g.game_id ∈ ids))).map
      (fun g => g.game_id), x ∈ ids := by
    intro x hx
    rcases List.mem_map.mp hx with ⟨g, hgF, rfl⟩
    have := (List.mem_filter.mp hgF).2
    simpa using this
  have hbadL : bad ∉ (games.filter (fun g => decide (g.game_id ∈ ids))).map
      (fun g => g.game_id) := by
    intro hbad
    rcases List.mem_map.mp hbad with ⟨g, hgF, hgid⟩
    exact hmiss g (List.mem_of_mem_filter hgF) hgid
  have hss : ((games.filter (fun g => decide (g.game_id ∈ ids))).map
      (fun g => g.game_id)).toFinset ⊂ ids.toFinset := by
    refine (Finset.ssubset_iff_of_subset ?_).mpr ?_
    · intro x hx
      exact List.mem_toFinset.mpr (hLsub x (List.mem_toFinset.mp hx))
    · exact ⟨bad, List.mem_toFinset.mpr hbadmem,
        fun hc => hbadL (List.mem_toFinset.mp hc)⟩
  calc (games.filter (fun g => decide (g.game_id ∈ ids))).length
      = ((games.filter (fun g => decide (g.game_id ∈ ids))).map
          (fun g => g.game_id)).length := (List.length_map _ _).symm
    _ = ((games.filter (fun g => decide (g.game_id ∈ ids))).map
          (fun g => g.game_id)).toFinset.card :=
        (List.toFinset_card_of_nodup hLnd).symm
    _ < ids.toFinset.card := Finset.card_lt_card hss
    _ ≤ ids.length := List.toFinset_card_le ids

theorem dedup_length_lt_of_not_nodup (ids : List Nat) (h : ¬ ids.Nodup) :
    ids.dedup.length < ids.length := by
  have hle : ids.dedup.length ≤ ids.length := (List.dedup_sublist ids).length_le
  rcases Nat.lt_or_ge ids.dedup.length ids.length with hlt | hge
  · exact hlt
  · have heq : ids.dedup.length = ids.length := Nat.le_antisymm hle hge
    have : ids.dedup = ids := (List.dedup_sublist ids).eq_of_length heq
    exact absurd (this ▸ List.nodup_dedup ids) h

theorem filter_mem_length_lt_of_dup (games : List Game) (ids : List Nat)
    (hnd : (games.map (fun g => g.game_id)).Nodup)
    (hdup : ¬ ids.Nodup) :
    (games.filter (fun g => decide (g.game_id ∈ ids))).length < ids.length := by
  have hFsub : (games.filter (fun g => decide (g.game_id ∈ ids))).Sublist games :=
    List.filter_sublist games
  have hLnd : ((games.filter (fun g => decide (g.game_id ∈ ids))).map
      (fun g => g.game_id)).Nodup :=
    List.Nodup.sublist (hFsub.map (fun g => g.game_id)) hnd
  have hLsub : ((games.filter (fun g => decide (g.game_id ∈ ids))).map
      (fun g => g.game_id)).toFinset ⊆ ids.toFinset := by
    intro x hx
    rcases List.mem_map.mp (List.mem_toFinset.mp hx) with ⟨g, hgF, rfl⟩
    have := (List.mem_filter.mp hgF).2
    exact List.mem_toFinset.mpr (by simpa using this)
  calc (games.filter (fun g => decide (g.game_id ∈ ids))).length
      = ((games.filter (fun g => decide (g.game_id ∈ ids))).map
          (fun g => g.game_id)).length := (List.length_map _ _).symm
    _ = ((games.filter (fun g => decide (g.game_id ∈ ids))).map
          (fun g => g.game_id)).toFinset.card :=
        (List.toFinset_card_of_nodup hLnd).symm
    _ ≤ ids.toFinset.card := Finset.card_le_card hLsub
    _ = ids.dedup.length := List.card_toFinset ids
    _ < ids.length := dedup_length_lt_of_not_nodup ids hdup

/- ---------------------------------------------------------------- -/
/- Claim theorems. -/
/- ---------------------------------------------------------------- -/

/-- C1: for every checkout request against a well-formed state that
returns the success response `{success: true, orderId: oid}`, the
resulting state contains exactly one order row with id `oid` and it has
status 1 (pending); the orders table grew by exactly one row; exactly
`items.length` order_items rows reference `oid` (one per cart line);
exactly one payments row references `oid`; and the inventory stock of
every game (where an inventory row exists) decreased by exactly the total
quantity the cart purchased of that game (the effect of the trigger). -/
theorem checkout_success_effects (db : DB) (req : CheckoutReq)
    (items : List CartItem) (oid : Nat)
    (hwf : DBWF db) (hitems : req.items = some items)
    (hok : (checkout db req).resp = ⟨200, Body.orderOk oid⟩) :
    (((checkout db req).db.orders.filter (fun o => decide (o.order_id = oid))).map
        (fun o => o.status_id) = [1]) ∧
    (checkout db req).db.orders.length = db.orders.length + 1 ∧
    ((checkout db req).db.order_items.filter
        (fun oi => decide (oi.order_id = oid))).length = items.length ∧
    ((checkout db req).db.payments.filter
        (fun p => decide (p.order_id = oid))).length = 1 ∧
    (∀ g, stockOf (checkout db req).db.inventory g
      = (stockOf db.inventory g).map (fun s => s - qtySum g items)) := by
  unfold checkout at hok ⊢
  simp only [hitems] at hok ⊢
  by_cases hv : intFalsy req.totalAmount ∨ natFalsy req.paymentMethodId
  · rw [if_pos hv] at hok
    simp at hok
  · rw [if_neg hv] at hok ⊢
    by_cases he : items.map (fun it => it.game_id) = []
    · rw [if_pos he] at hok
      simp at hok
    · rw [if_neg he] at hok ⊢
      by_cases hc : (db.games.filter
            (fun g => decide (g.game_id ∈ items.map (fun it => it.game_id)))).length
          = (items.map (fun it => it.game_id)).length
      · rw [if_pos hc] at hok ⊢
        cases htx : checkoutTxnBody db req items with
        | error e =>
          rw [htx] at hok
          simp at hok
        | ok p =>
          obtain ⟨db3, oid1⟩ := p
          rw [htx] at hok
          have hoid : oid1 = oid := by
            have hb := congrArg Response.body hok
            simpa using hb
          subst hoid
          exact checkoutTxnBody_ok hwf htx
      · rw [if_neg hc] at hok
        simp at hok

/-- C1 witness: the two-line cart against the seeded catalog succeeds
with order id 1 and produces the claimed row counts and the inventory
decrement. -/
theorem checkout_success_effects_witness :
    (((checkout seedDB okCheckoutReq).db.orders.filter
        (fun o => decide (o.order_id = 1))).map (fun o => o.status_id) = [1]) ∧
    (checkout seedDB okCheckoutReq).db.orders.length = seedDB.orders.length + 1 ∧
    ((checkout seedDB okCheckoutReq).db.order_items.filter
        (fun oi => decide (oi.order_id = 1))).length
      = ([⟨1, 2, 60⟩, ⟨2, 1, 40⟩] : List CartItem).length ∧
    ((checkout seedDB okCheckoutReq).db.payments.filter
        (fun p => decide (p.order_id = 1))).length = 1 ∧
    (∀ g, stockOf (checkout seedDB okCheckoutReq).db.inventory g
      = (stockOf seedDB.inventory g).map
          (fun s => s - qtySum g [⟨1, 2, 60⟩, ⟨2, 1, 40⟩])) :=
  checkout_success_effects seedDB okCheckoutReq [⟨1, 2, 60⟩, ⟨2, 1, 40⟩] 1
    (by decide) rfl (by decide)

/-- C2 (amended): every checkout request whose handler answers status 500
leaves the database exactly as it was (the transaction — when one was
begun — was fully rolled back, so no order, order_items or payments row
of the attempt is visible), and the 500 response body is `{error: m}`
where `m` is the original error message: contrary to the claim, the
error detail is exposed to the caller rather than a generic
TransactionError. -/
theorem checkout_failure_rolls_back (db : DB) (req : CheckoutReq)
    (h : (checkout db req).resp.status = 500) :
    (checkout db req).db = db ∧
    ∃ m, (checkout db req).resp.body = Body.err m := by
  unfold checkout at h ⊢
  rcases hit : req.items with _ | items
  · simp [hit] at h
  · simp only [hit] at h ⊢
    by_cases hv : intFalsy req.totalAmount ∨ natFalsy req.paymentMethodId
    · rw [if_pos hv] at h
      simp at h
    · rw [if_neg hv] at h ⊢
      by_cases he : items.map (fun it => it.game_id) = []
      · rw [if_pos he]
        exact ⟨rfl, _, rfl⟩
      · rw [if_neg he] at h ⊢
        by_cases hc : (db.games.filter
              (fun g => decide (g.game_id ∈ items.map (fun it => it.game_id)))).length
            = (items.map (fun it => it.game_id)).length
        · rw [if_pos hc] at h ⊢
          cases htx : checkoutTxnBody db req items with
          | error e =>
            exact ⟨rfl, _, rfl⟩
          | ok p =>
            obtain ⟨db3, oid1⟩ := p
            rw [htx] at h
            simp at h
        · rw [if_neg hc] at h
          simp at h

/-- C2 witness: the failing payment insert (method id 99 has no
payment_methods row) leaves seedDB unchanged and sends an `{error: m}`
body. -/
theorem checkout_failure_rolls_back_witness :
    (checkout seedDB badMethodReq).db = seedDB ∧
    ∃ m, (checkout seedDB badMethodReq).resp.body = Body.err m :=
  checkout_failure_rolls_back seedDB badMethodReq (by decide)

/-- C2 counterexample: at this concrete failing checkout the response
body is exactly `{error: err.message}` with the original store error
message — the handler sends `res.status(500).json({error: err.message})`
— refuting the claim that the original error detail is never exposed in
the response body. -/
theorem checkout_error_detail_exposed :
    (checkout seedDB badMethodReq).resp.status = 500 ∧
    (checkout seedDB badMethodReq).resp.body =
      Body.err "INSERT INTO payments conflicted with a FOREIGN KEY constraint" := by
  exact ⟨rfl, rfl⟩

/-- C3 (amended): a checkout request that passes field validation and
references at least one game id absent from the catalog fails with the
invalid-ids message (HTTP 400) and creates no Order, OrderItem or Payment
row — but only after the mutating transaction has been opened
(`transaction.begin()` precedes the referential check), and the 400 path
returns without committing or rolling the transaction back. -/
theorem checkout_invalid_ref_after_begin (db : DB) (req : CheckoutReq)
    (items : List CartItem) (it : CartItem)
    (hwf : DBWF db) (hitems : req.items = some items)
    (ht : ¬ intFalsy req.totalAmount) (hm : ¬ natFalsy req.paymentMethodId)
    (hit : it ∈ items) (hmiss : ∀ g ∈ db.games, g.game_id ≠ it.game_id) :
    checkout db req =
      ⟨⟨400, Body.msg false "One or more game IDs are invalid."⟩, db, true, true⟩ := by
  have hbadmem : it.game_id ∈ items.map (fun x => x.game_id) :=
    List.mem_map_of_mem _ hit
  have hne : items.map (fun x => x.game_id) ≠ [] := by
    intro h0
    rw [h0] at hbadmem
    cases hbadmem
  have hlt := filter_mem_length_lt_of_missing db.games
    (items.map (fun x => x.game_id)) hwf.2.2.2 it.game_id hbadmem hmiss
  have hc : ¬ ((db.games.filter
        (fun g => decide (g.game_id ∈ items.map (fun x => x.game_id)))).length
      = (items.map (fun x => x.game_id)).length) := Nat.ne_of_lt hlt
  unfold checkout
  simp only [hitems]
  rw [if_neg (fun hh => hh.elim ht hm), if_neg hne, if_neg hc]

/-- C3 witness: the cart referencing the nonexistent game id 99 gets the
400 invalid-ids response, the database is unchanged, the transaction had
been begun and is still open. -/
theorem checkout_invalid_ref_after_begin_witness :
    checkout seedDB unknownGameReq =
      ⟨⟨400, Body.msg false "One or more game IDs are invalid."⟩, seedDB, true, true⟩ :=
  checkout_invalid_ref_after_begin seedDB unknownGameReq [⟨99, 1, 10⟩] ⟨99, 1, 10⟩
    (by decide) rfl (by decide) (by decide) (by decide) (by decide)

/-- C3 counterexample: for the concrete request with an invalid game id
the handler has already executed `transaction.begin()` when it responds
400 (and leaves the transaction open), refuting the claim that the
operation fails before the mutating transaction is opened. -/
theorem checkout_invalid_ref_txn_already_open :
    (checkout seedDB unknownGameReq).txnBegan = true ∧
    (checkout seedDB unknownGameReq).txnOpenAtEnd = true ∧
    (checkout seedDB unknownGameReq).resp =
      ⟨400, Body.msg false "One or more game IDs are invalid."⟩ := by
  exact ⟨rfl, rfl, rfl⟩

/-- C4 (amended): a checkout request whose `items` field is absent, or
whose totalAmount is absent or zero, or whose paymentMethodId is absent
or zero, is rejected with 400 `Missing required fields.` before any
transaction and with no persistent change; but a present-and-empty cart
is truthy in JavaScript and passes validation: it fails only inside the
opened transaction, as a 500 store error (the interpolated `IN ()` is a
T-SQL syntax error), still with no persistent change. -/
theorem checkout_validation_behavior (db : DB) (req : CheckoutReq) :
    ((req.items = none ∨ intFalsy req.totalAmount ∨ natFalsy req.paymentMethodId) →
      checkout db req =
        ⟨⟨400, Body.msg false "Missing required fields."⟩, db, false, false⟩) ∧
    (req.items = some [] → ¬ intFalsy req.totalAmount → ¬ natFalsy req.paymentMethodId →
      (checkout db req).resp.status = 500 ∧ (checkout db req).db = db) := by
  constructor
  · intro hv
    unfold checkout
    rcases hit : req.items with _ | items
    · rfl
    · rcases hv with hn | hv
      · rw [hit] at hn
        cases hn
      · exact if_pos hv
  · intro h0 ht hm
    unfold checkout
    simp only [h0]
    rw [if_neg (fun hh => hh.elim ht hm)]
    exact ⟨rfl, rfl⟩

/-- C4 witness: a request with no totalAmount is rejected 400 with no
change; the empty-cart request reaches the 500 path with no change. -/
theorem checkout_validation_behavior_witness :
    (checkout seedDB noTotalReq =
      ⟨⟨400, Body.msg false "Missing required fields."⟩, seedDB, false, false⟩) ∧
    ((checkout seedDB emptyCartReq).resp.status = 500 ∧
      (checkout seedDB emptyCartReq).db = seedDB) :=
  ⟨(checkout_validation_behavior seedDB noTotalReq).1 (by decide),
   (checkout_validation_behavior seedDB emptyCartReq).2 rfl (by decide) (by decide)⟩

/-- C4 counterexample: the empty-cart checkout request (cart present but
`[]`, total amount and payment method supplied) is answered with HTTP
500, not the claimed ValidationError 400. -/
theorem checkout_empty_cart_not_400 :
    (checkout seedDB emptyCartReq).resp.status = 500 ∧
    (checkout seedDB emptyCartReq).resp.status ≠ 400 := by
  exact ⟨rfl, by decide⟩

/-- C9: a checkout request whose cart lists the same game id on more than
one line (so the mapped id list is not duplicate-free), with every
referenced game existing in the catalog and the other fields supplied, is
rejected by the distinct-count comparison with the invalid-ids message
(HTTP 400) and no Order, OrderItem or Payment row is created. -/
theorem checkout_duplicate_lines_rejected (db : DB) (req : CheckoutReq)
    (items : List CartItem)
    (hwf : DBWF db) (hitems : req.items = some items)
    (ht : ¬ intFalsy req.totalAmount) (hm : ¬ natFalsy req.paymentMethodId)
    (hall : ∀ x ∈ items, ∃ g ∈ db.games, g.game_id = x.game_id)
    (hdup : ¬ (items.map (fun x => x.game_id)).Nodup) :
    checkout db req =
      ⟨⟨400, Body.msg false "One or more game IDs are invalid."⟩, db, true, true⟩ := by
  have hne : items.map (fun x => x.game_id) ≠ [] := by
    intro h0
    rw [h0] at hdup
    exact hdup List.nodup_nil
  have hlt := filter_mem_length_lt_of_dup db.games
    (items.map (fun x => x.game_id)) hwf.2.2.2 hdup
  have hc : ¬ ((db.games.filter
        (fun g => decide (g.game_id ∈ items.map (fun x => x.game_id)))).length
      = (items.map (fun x => x.game_id)).length) := Nat.ne_of_lt hlt
  unfold checkout
  simp only [hitems]
  rw [if_neg (fun hh => hh.elim ht hm), if_neg hne, if_neg hc]

/-- C9 witness: the cart listing existing game id 1 on two lines is
rejected with the invalid-ids 400 response and the database unchanged. -/
theorem checkout_duplicate_lines_rejected_witness :
    checkout seedDB dupLinesReq =
      ⟨⟨400, Body.msg false "One or more game IDs are invalid."⟩, seedDB, true, true⟩ :=
  checkout_duplicate_lines_rejected seedDB dupLinesReq [⟨1, 1, 60⟩, ⟨1, 2, 60⟩]
    (by decide) rfl (by decide) (by decide) (by decide) (by decide)

/-- C5: for the admin game-creation handler, a request whose identifier
is currently in the in-flight set is rejected immediately with the
duplicate-request 400 response and changes neither the set nor the
database; and a request whose identifier was not in flight — whichever
exit path it takes (missing fields, duplicate title, or success) — ends
with its identifier removed from the set, so a later request with the
same identifier is not rejected as a duplicate. -/
theorem addGame_dedup_lifecycle (active : List String) (db : DB) (req : GameReq) :
    (req.requestId ∈ active →
      addGame active db req =
        ⟨⟨400, Body.msg false "Duplicate request detected."⟩, active, db⟩) ∧
    (req.requestId ∉ active → req.requestId ∉ (addGame active db req).active) := by
  constructor
  · intro h
    unfold addGame
    rw [if_pos h]
  · intro h
    have herase : (active ++ [req.requestId]).erase req.requestId = active := by
      rw [List.erase_append_right _ h, List.erase_cons_head, List.append_nil]
    unfold addGame
    rw [if_neg h]
    split_ifs <;> simpa [herase] using h

/-- C5 witness: a request whose id `req-1` is in flight is rejected with
no state change, and after a fresh run of the same request the id is no
longer marked in flight. -/
theorem addGame_dedup_lifecycle_witness :
    (addGame ["req-1"] seedDB newGameReq =
      ⟨⟨400, Body.msg false "Duplicate request detected."⟩, ["req-1"], seedDB⟩) ∧
    "req-1" ∉ (addGame [] seedDB newGameReq).active :=
  ⟨(addGame_dedup_lifecycle ["req-1"] seedDB newGameReq).1 (by decide),
   (addGame_dedup_lifecycle [] seedDB newGameReq).2 (by decide)⟩

/-- C6 (amended): registering an email that an earlier successful
registration already stored fails on the uniqueness check with the
message `Email is already registered.` and inserts nothing, so exactly
one users row holds that email afterwards — but the conflict response is
sent with `res.json`, i.e. HTTP status 200, not the 400 the error
taxonomy prescribes for ConflictError. -/
theorem register_duplicate_email_conflict (db : DB) (r1 r2 : RegisterReq)
    (hemail : r2.email = r1.email)
    (hu : ¬ strFalsy r2.username) (he : ¬ strFalsy r2.email)
    (hp : ¬ strFalsy r2.password) (hr : ¬ strFalsy r2.role)
    (hok : (register db r1).resp = ⟨200, Body.msg true "Registration successful."⟩) :
    (register (register db r1).db r2).resp =
      ⟨200, Body.msg false "Email is already registered."⟩ ∧
    (register (register db r1).db r2).db = (register db r1).db ∧
    countEmail (register db r1).db (r1.email.getD "") = 1 := by
  unfold register at hok
  by_cases h1 : strFalsy r1.username ∨ strFalsy r1.email ∨ strFalsy r1.password ∨
      strFalsy r1.role
  · rw [if_pos h1] at hok
    simp at hok
  · rw [if_neg h1] at hok
    by_cases h2 : ∃ u ∈ db.users, u.email = r1.email.getD ""
    · rw [if_pos h2] at hok
      simp at hok
    · rw [if_neg h2] at hok
      have hdb1 : (register db r1).db =
          { db with
            users := db.users ++ [⟨db.nextUserId, r1.username.getD "",
              r1.email.getD "", hashPassword (r1.password.getD ""),
              if r1.role.getD "" = "admin" then 2 else 1⟩],
            nextUserId := db.nextUserId + 1 } := by
        unfold register
        rw [if_neg h1, if_neg h2]
      have hfilternil : db.users.filter
          (fun u => decide (u.email = r1.email.getD "")) = [] := by
        refine List.filter_eq_nil_iff.mpr (fun u hu2 => ?_)
        simp only [decide_eq_true_eq]
        exact fun hc => h2 ⟨u, hu2, hc⟩
      have hcount : countEmail (register db r1).db (r1.email.getD "") = 1 := by
        rw [hdb1]
        unfold countEmail
        simp [List.filter_append, hfilternil]
      have hgetD : r2.email.getD "" = r1.email.getD "" := by rw [hemail]
      have hexists : ∃ u ∈ (register db r1).db.users,
          u.email = r2.email.getD "" := by
        rw [hdb1, hgetD]
        exact ⟨⟨db.nextUserId, r1.username.getD "", r1.email.getD "",
          hashPassword (r1.password.getD ""),
          if r1.role.getD "" = "admin" then 2 else 1⟩,
          List.mem_append_right _ (List.mem_singleton_self _), rfl⟩
      have hval : ¬ (strFalsy r2.username ∨ strFalsy r2.email ∨ strFalsy r2.password ∨
          strFalsy r2.role) := by
        rintro (h | h | h | h)
        exacts [hu h, he h, hp h, hr h]
      refine ⟨?_, ?_, hcount⟩ <;>
      · generalize hg : (register db r1).db = db1 at hexists ⊢
        unfold register
        rw [if_neg hval, if_pos hexists]

/-- C6 witness: the concrete second registration for `a@x.com` gets the
conflict response, changes nothing, and exactly one users row holds the
email. -/
theorem register_duplicate_email_conflict_witness :
    (register (register seedDB regReq1).db regReq2).resp =
      ⟨200, Body.msg false "Email is already registered."⟩ ∧
    (register (register seedDB regReq1).db regReq2).db = (register seedDB regReq1).db ∧
    countEmail (register seedDB regReq1).db (regReq1.email.getD "") = 1 :=
  register_duplicate_email_conflict seedDB regReq1 regReq2 rfl
    (by decide) (by decide) (by decide) (by decide) (by decide)

/-- C6 counterexample: the second registration of the same email is
answered with HTTP status 200 (the handler uses `res.json` without
`res.status`), not the 400 the claim derives from the error taxonomy. -/
theorem register_conflict_status_not_400 :
    (register (register seedDB regReq1).db regReq2).resp.status = 200 ∧
    (register (register seedDB regReq1).db regReq2).resp.body =
      Body.msg false "Email is already registered." ∧
    (register (register seedDB regReq1).db regReq2).resp.status ≠ 400 := by
  refine ⟨by decide, by decide, by decide⟩

/-- C10: a registration with all fields supplied and a fresh email
succeeds and stores role_id 2 exactly when the supplied role string is
exactly `admin`, and role_id 1 for every other supplied role string —
an unrecognized role is silently stored as customer, never rejected. -/
theorem register_role_mapping (db : DB) (r : RegisterReq)
    (hu : ¬ strFalsy r.username) (he : ¬ strFalsy r.email)
    (hp : ¬ strFalsy r.password) (hr : ¬ strFalsy r.role)
    (hnew : ¬ ∃ u ∈ db.users, u.email = r.email.getD "") :
    (register db r).resp = ⟨200, Body.msg true "Registration successful."⟩ ∧
    ∃ u ∈ (register db r).db.users, u.email = r.email.getD "" ∧
      (u.role_id = 2 ↔ r.role.getD "" = "admin") ∧
      (r.role.getD "" ≠ "admin" → u.role_id = 1) := by
  have hval : ¬ (strFalsy r.username ∨ strFalsy r.email ∨ strFalsy r.password ∨
      strFalsy r.role) := by
    rintro (h | h | h | h)
    exacts [hu h, he h, hp h, hr h]
  unfold register
  rw [if_neg hval, if_neg hnew]
  refine ⟨rfl, ⟨db.nextUserId, r.username.getD "", r.email.getD "",
    hashPassword (r.password.getD ""),
    if r.role.getD "" = "admin" then 2 else 1⟩,
    List.mem_append_right _ (List.mem_singleton_self _), rfl, ?_, ?_⟩
  · by_cases h : r.role.getD "" = "admin" <;> simp [h]
  · intro h
    simp [h]

/-- C10 witness: role `admin` is stored as role_id 2; the unrecognized
role `Admin` is stored as role_id 1 (customer) and still succeeds. -/
theorem register_role_mapping_witness :
    ((register seedDB regReq1).resp = ⟨200, Body.msg true "Registration successful."⟩ ∧
     ∃ u ∈ (register seedDB regReq1).db.users, u.email = regReq1.email.getD "" ∧
       (u.role_id = 2 ↔ regReq1.role.getD "" = "admin") ∧
       (regReq1.role.getD "" ≠ "admin" → u.role_id = 1)) ∧
    ((register seedDB regReqOddRole).resp =
        ⟨200, Body.msg true "Registration successful."⟩ ∧
     ∃ u ∈ (register seedDB regReqOddRole).db.users,
       u.email = regReqOddRole.email.getD "" ∧
       (u.role_id = 2 ↔ regReqOddRole.role.getD "" = "admin") ∧
       (regReqOddRole.role.getD "" ≠ "admin" → u.role_id = 1)) :=
  ⟨register_role_mapping seedDB regReq1
      (by decide) (by decide) (by decide) (by decide) (by decide),
   register_role_mapping seedDB regReqOddRole
      (by decide) (by decide) (by decide) (by decide) (by decide)⟩

/-- C7: a login whose email matches no (joined) user and a login whose
email matches a user but whose password does not verify against the
stored hash receive the identical `Invalid email or password.` response,
so the two failure causes are indistinguishable from the response; a
login with matching email and verifying password whose account role name
differs from the lowercased requested role gets the role-mismatch
message; and every login leaves the database unchanged. -/
theorem login_uniform_failures_and_role_gate (db : DB) (r : LoginReq) :
    ((findByEmailJoined db.user_roles db.users r.email = none ∨
      ∃ u, findByEmailJoined db.user_roles db.users r.email = some u ∧
        ¬ bcryptVerify r.password u.password) →
      (login db r).1 = ⟨200, Body.msg false "Invalid email or password."⟩) ∧
    (∀ u, findByEmailJoined db.user_roles db.users r.email = some u →
      bcryptVerify r.password u.password →
      (if u.role_id = 2 then "admin" else "customer") ≠ lowerString r.role →
      (login db r).1 =
        ⟨200, Body.msg false ("Access denied: not a " ++ r.role ++ ".")⟩) ∧
    (login db r).2 = db := by
  refine ⟨?_, ?_, ?_⟩
  · rintro (hn | ⟨u, hu, hv⟩)
    · unfold login
      rw [hn]
    · unfold login
      rw [hu]
      simp only [if_neg hv]
  · intro u hu hv hne
    unfold login
    rw [hu]
    simp only [if_pos hv, if_neg hne]
  · unfold login
    rcases hu : findByEmailJoined db.user_roles db.users r.email with _ | u
    · rfl
    · dsimp only
      split_ifs <;> rfl

/-- C7 witness: unknown email and wrong password give the identical
uniform response on loginDB; correct credentials with requested role
`Admin` (account role customer) give the role-mismatch message; the
database is unchanged. -/
theorem login_uniform_failures_and_role_gate_witness :
    ((login loginDB loginUnknownReq).1 =
        ⟨200, Body.msg false "Invalid email or password."⟩) ∧
    ((login loginDB loginWrongPwReq).1 =
        ⟨200, Body.msg false "Invalid email or password."⟩) ∧
    ((login loginDB loginRoleMismatchReq).1 =
        ⟨200, Body.msg false ("Access denied: not a " ++ "Admin" ++ ".")⟩) ∧
    (login loginDB loginRoleMismatchReq).2 = loginDB :=
  ⟨(login_uniform_failures_and_role_gate loginDB loginUnknownReq).1
      (Or.inl (by decide)),
   (login_uniform_failures_and_role_gate loginDB loginWrongPwReq).1
      (Or.inr ⟨⟨1, "carol", "c@x.com", hashPassword "secret", 1⟩, by decide, by decide⟩),
   (login_uniform_failures_and_role_gate loginDB loginRoleMismatchReq).2.1
      ⟨1, "carol", "c@x.com", hashPassword "secret", 1⟩
      (by decide) (by decide) (by decide),
   (login_uniform_failures_and_role_gate loginDB loginRoleMismatchReq).2.2⟩

/- ---------------------------------------------------------------- -/
/- Lemmas about the order report. -/
/- ---------------------------------------------------------------- -/

theorem mem_reportRowsFor_id_date (db : DB) (o : Order) (row : ReportRow)
    (hrow : row ∈ reportRowsFor db o) :
    row.order_id = o.order_id ∧ row.order_date = o.order_date := by
  unfold reportRowsFor at hrow
  split at hrow
  · rcases List.mem_singleton.mp hrow with rfl
    exact ⟨rfl, rfl⟩
  · rcases List.mem_map.mp hrow with ⟨oi, hoi, rfl⟩
    exact ⟨rfl, rfl⟩

theorem reportRowsFor_nonempty (db : DB) (o : Order) :
    ∃ row ∈ reportRowsFor db o, row.order_id = o.order_id := by
  unfold reportRowsFor
  split
  · exact ⟨_, List.mem_singleton_self _, rfl⟩
  · rename_i h
    obtain ⟨oi, hoi⟩ := List.exists_mem_of_ne_nil _ h
    exact ⟨_, List.mem_map_of_mem _ hoi, rfl⟩

theorem mem_ordersReport_of_mem (db : DB) (o : Order) (ho : o ∈ db.orders) :
    ∃ row ∈ ordersReport db, row.order_id = o.order_id := by
  obtain ⟨row, hrow, hid⟩ := reportRowsFor_nonempty db o
  exact ⟨row, List.mem_flatMap.mpr ⟨o,
    ((List.perm_insertionSort newestFirst db.orders).mem_iff).mpr ho, hrow⟩, hid⟩

theorem ordersReport_empty_order (db : DB) (o : Order) (ho : o ∈ db.orders)
    (hno : ∀ oi ∈ db.order_items, oi.order_id ≠ o.order_id) :
    ∃ row ∈ ordersReport db, row.order_id = o.order_id ∧
      row.game_title = "Deleted Game" ∧ row.quantity = none ∧
      row.order_item_id = none := by
  have hnil : db.order_items.filter
      (fun oi => decide (oi.order_id = o.order_id)) = [] :=
    List.filter_eq_nil_iff.mpr (fun oi h => by simpa using hno oi h)
  refine ⟨⟨o.order_id, o.order_date, o.total_amount,
    lookupName db.order_status o.status_id, customerNameOf db o.user_id, none,
    "Deleted Game", none, none⟩, ?_, rfl, rfl, rfl, rfl⟩
  refine List.mem_flatMap.mpr ⟨o,
    ((List.perm_insertionSort newestFirst db.orders).mem_iff).mpr ho, ?_⟩
  unfold reportRowsFor
  rw [if_pos hnil]
  exact List.mem_singleton_self _

theorem pairwise_newest_rows (rows : List ReportRow) (d : Nat)
    (h : ∀ x ∈ rows, x.order_date = d) :
    rows.Pairwise (fun a b => b.order_date ≤ a.order_date) := by
  induction rows with
  | nil => exact List.Pairwise.nil
  | cons x xs ih =>
    refine List.Pairwise.cons (fun y hy => ?_)
      (ih (fun z hz => h z (List.mem_cons_of_mem _ hz)))
    rw [h x (List.mem_cons_self _ _), h y (List.mem_cons_of_mem _ hy)]

theorem ordersReport_sorted (db : DB) :
    (ordersReport db).Pairwise (fun a b => b.order_date ≤ a.order_date) := by
  unfold ordersReport
  rw [List.pairwise_flatMap]
  constructor
  · intro o ho
    exact pairwise_newest_rows _ o.order_date
      (fun x hx => (mem_reportRowsFor_id_date db o x hx).2)
  · have hs : (List.insertionSort newestFirst db.orders).Pairwise newestFirst :=
      List.sorted_insertionSort newestFirst db.orders
    refine List.Pairwise.imp ?_ hs
    intro a b hab x hx y hy
    rw [(mem_reportRowsFor_id_date db a x hx).2, (mem_reportRowsFor_id_date db b y hy).2]
    exact hab

/-- C8 (amended): for an existing game id that some inventory row still
references, the games DELETE violates the inventory foreign key (the DDL
declares inventory.game_id references games with no cascade and the
handler never clears inventory): the handler answers 500 and the
transaction is fully rolled back, removing nothing.  For an existing game
id with no inventory row, the deletion removes, in one transaction, every
order_items row referencing it (and only those) and then the game row;
the orders survive, the report still lists every surviving order —
newest first — and an order left with no line items at all appears as a
single placeholder row titled `Deleted Game` with NULL item fields; the
removed line items themselves (their quantities and ids) no longer appear
in the report, contrary to the claim that the affected line items are
still listed under a placeholder title. -/
theorem delete_game_cascade_and_report (db : DB) (gid : Nat)
    (hex : ∃ g ∈ db.games, g.game_id = gid) :
    ((∃ r ∈ db.inventory, r.game_id = gid) →
      (deleteGame db gid).resp = ⟨500, Body.msg false "Failed to delete game."⟩ ∧
      (deleteGame db gid).db = db) ∧
    ((¬ ∃ r ∈ db.inventory, r.game_id = gid) →
      (deleteGame db gid).resp = ⟨200, Body.msg true "Game deleted successfully."⟩ ∧
      (∀ oi ∈ (deleteGame db gid).db.order_items, oi.game_id ≠ gid) ∧
      (∀ g ∈ (deleteGame db gid).db.games, g.game_id ≠ gid) ∧
      (∀ oi ∈ db.order_items, oi.game_id ≠ gid →
        oi ∈ (deleteGame db gid).db.order_items) ∧
      (deleteGame db gid).db.orders = db.orders ∧
      (∀ o ∈ (deleteGame db gid).db.orders,
        ∃ row ∈ ordersReport (deleteGame db gid).db, row.order_id = o.order_id) ∧
      (∀ o ∈ (deleteGame db gid).db.orders,
        (∀ oi ∈ (deleteGame db gid).db.order_items, oi.order_id ≠ o.order_id) →
        ∃ row ∈ ordersReport (deleteGame db gid).db, row.order_id = o.order_id ∧
          row.game_title = "Deleted Game" ∧ row.quantity = none ∧
          row.order_item_id = none) ∧
      (ordersReport (deleteGame db gid).db).Pairwise
        (fun a b => b.order_date ≤ a.order_date)) := by
  constructor
  · intro hinv
    unfold deleteGame
    rw [if_pos hex, if_pos hinv]
    exact ⟨rfl, rfl⟩
  · intro hinv
    have hd : deleteGame db gid =
        ⟨⟨200, Body.msg true "Game deleted successfully."⟩,
          { db with
            order_items := db.order_items.filter (fun oi => decide (oi.game_id ≠ gid)),
            games := db.games.filter (fun g => decide (g.game_id ≠ gid)) }⟩ := by
      unfold deleteGame
      rw [if_pos hex, if_neg hinv]
    rw [hd]
    dsimp only
    refine ⟨rfl, ?_, ?_, ?_, rfl, ?_, ?_, ?_⟩
    · intro oi hoi
      have := (List.mem_filter.mp hoi).2
      simpa using this
    · intro g hg
      have := (List.mem_filter.mp hg).2
      simpa using this
    · intro oi hoi hne
      exact List.mem_filter.mpr ⟨hoi, by simpa using hne⟩
    · intro o ho
      exact mem_ordersReport_of_mem _ o ho
    · intro o ho hnone
      exact ordersReport_empty_order _ o ho hnone
    · exact ordersReport_sorted _

/-- C8 witness: deleting game 1 from reportDB — whose inventory still
references it — answers 500 and changes nothing; deleting game 1 from
noInvReportDB (same state without the inventory row) succeeds, removes
the line item and the game, keeps the order, and the report shows the
placeholder row, newest first. -/
theorem delete_game_cascade_and_report_witness :
    ((deleteGame reportDB 1).resp = ⟨500, Body.msg false "Failed to delete game."⟩ ∧
      (deleteGame reportDB 1).db = reportDB) ∧
    ((deleteGame noInvReportDB 1).resp =
        ⟨200, Body.msg true "Game deleted successfully."⟩ ∧
      (∀ oi ∈ (deleteGame noInvReportDB 1).db.order_items, oi.game_id ≠ 1) ∧
      (∀ g ∈ (deleteGame noInvReportDB 1).db.games, g.game_id ≠ 1) ∧
      (∀ oi ∈ noInvReportDB.order_items, oi.game_id ≠ 1 →
        oi ∈ (deleteGame noInvReportDB 1).db.order_items) ∧
      (deleteGame noInvReportDB 1).db.orders = noInvReportDB.orders ∧
      (∀ o ∈ (deleteGame noInvReportDB 1).db.orders,
        ∃ row ∈ ordersReport (deleteGame noInvReportDB 1).db,
          row.order_id = o.order_id) ∧
      (∀ o ∈ (deleteGame noInvReportDB 1).db.orders,
        (∀ oi ∈ (deleteGame noInvReportDB 1).db.order_items,
          oi.order_id ≠ o.order_id) →
        ∃ row ∈ ordersReport (deleteGame noInvReportDB 1).db,
          row.order_id = o.order_id ∧ row.game_title = "Deleted Game" ∧
          row.quantity = none ∧ row.order_item_id = none) ∧
      (ordersReport (deleteGame noInvReportDB 1).db).Pairwise
        (fun a b => b.order_date ≤ a.order_date)) :=
  ⟨(delete_game_cascade_and_report reportDB 1 (by decide)).1 (by decide),
   (delete_game_cascade_and_report noInvReportDB 1 (by decide)).2 (by decide)⟩

/-- C8 counterexample: game 1 exists in reportDB and an inventory row
references it; the games DELETE therefore violates the inventory foreign
key, the handler answers 500 and rolls back, and the game row and its
order_items row survive — refuting the claim that for every existing
game id the operation removes the OrderItem rows and the Game row. -/
theorem delete_game_with_inventory_fails :
    (∃ g ∈ reportDB.games, g.game_id = 1) ∧
    (deleteGame reportDB 1).resp.status = 500 ∧
    (deleteGame reportDB 1).resp.status ≠ 200 ∧
    (deleteGame reportDB 1).db = reportDB ∧
    (∃ g ∈ (deleteGame reportDB 1).db.games, g.game_id = 1) ∧
    (∃ oi ∈ (deleteGame reportDB 1).db.order_items, oi.game_id = 1) := by
  refine ⟨by decide, by decide, by decide, by decide, by decide, by decide⟩

end GameStore
